import Mathlib

/-!
# Verification of `src/scripts/transform.py`

A shallow embedding of the AWS Lambda event-processing pipeline
(`validate_event`, `check_duplicate`, `enrich_and_store_event`,
`process_event`, `lambda_handler`) together with proofs about the
claims of the specification.

Python runtime values that the pipeline can encounter are modelled by
`PyVal`; a JSON-decoded payload (a Python `dict` with string keys) is
modelled as an ordered association list; the two AWS stores (DynamoDB
idempotency table, S3 object sink) are modelled by an explicit `World`
state threaded through the functions, with per-store failure flags
standing for store unavailability (a failing call raises, which the
embedding propagates exactly as the source's `try`/`except` blocks do).
-/

set_option autoImplicit false

namespace Transform

/-- A Python runtime value, restricted to the shapes the pipeline can see:
integers, booleans (`bool` is a subclass of `int` in Python), strings,
`None`, lists, and floats (a float is carried as its truncated integer
value, which is all `int(x)` observes). -/
inductive PyVal where
  | int : Int → PyVal
  | bool : Bool → PyVal
  | str : String → PyVal
  | none : PyVal
  | list : List PyVal → PyVal
  | float : Int → PyVal
deriving Repr

/-- A JSON-decoded Python dict with string keys, in insertion order. -/
abbrev Payload := List (String × PyVal)

/-- Python `key in payload` — key presence, not truthiness of the value. -/
def hasKeyP : Payload → String → Bool
  | [], _ => false
  | (k', _) :: rest, k => k' = k || hasKeyP rest k

/-- Python `payload[key]` / `payload.get(key)`; an absent key yields `None`
(the source only indexes keys whose presence it has already checked, so
the `KeyError` case never arises on the paths modelled here). -/
def getP : Payload → String → PyVal
  | [], _ => .none
  | (k', v) :: rest, k => if k' = k then v else getP rest k

/-- Python `payload[key] = v`: overwrite in place, keeping the key's
position, or append a fresh key at the end. -/
def insertP : Payload → String → PyVal → Payload
  | [], k, v => [(k, v)]
  | (k', v') :: rest, k, v =>
      if k' = k then (k, v) :: rest else (k', v') :: insertP rest k v

/-- Python `str(x)` for the values the pipeline renders into keys and
paths (`str(None) = "None"`, `str(True) = "True"`). -/
def pyStr : PyVal → String
  | .int n => toString n
  | .bool b => if b then "True" else "False"
  | .str s => s
  | .none => "None"
  | .list _ => "[...]"
  | .float n => toString n

/-- Outcome of Python `int(x)`: a value, a `ValueError` (non-numeric
string), or a `TypeError` (`None`, a list, ...). -/
inductive Coerce where
  | ok : Int → Coerce
  | valueError : Coerce
  | typeError : Coerce
deriving Repr, DecidableEq

/-- Digits of a decimal literal to a number; `Option.none` when the list is
empty or holds a non-digit. -/
def digitsToNat : List Char → Option Nat
  | [] => Option.none
  | cs =>
      if cs.all (fun c => c.isDigit) then
        Option.some (cs.foldl (fun a c => a * 10 + (c.toNat - 48)) 0)
      else Option.none

/-- ASCII whitespace, as stripped by Python `int(str)`. -/
def isSpaceChar (c : Char) : Bool :=
  c = ' ' || c = '\t' || c = '\n' || c = '\r'

/-- Strip whitespace from both ends of a character list. -/
def stripChars (cs : List Char) : List Char :=
  ((cs.dropWhile isSpaceChar).reverse.dropWhile isSpaceChar).reverse

/-- Python `int(s)` on a string: surrounding whitespace is ignored, an
optional sign precedes a non-empty digit run; anything else is a
`ValueError`. -/
def pyIntOfString (s : String) : Option Int :=
  match stripChars s.toList with
  | '+' :: rest => (digitsToNat rest).map Int.ofNat
  | '-' :: rest => (digitsToNat rest).map (fun n => -(Int.ofNat n))
  | cs => (digitsToNat cs).map Int.ofNat

/-- Python `int(x)` over `PyVal` (`int(True) = 1`, `int(None)` raises
`TypeError`, `int("x")` raises `ValueError`, a float truncates). -/
def coerceInt : PyVal → Coerce
  | .int n => .ok n
  | .bool b => .ok (if b then 1 else 0)
  | .float n => .ok n
  | .str s =>
      match pyIntOfString s with
      | Option.some n => .ok n
      | Option.none => .valueError
  | .none => .typeError
  | .list _ => .typeError

/-- Python `isinstance(x, int)` — true for `int` and for `bool` (a
subclass of `int`), false for floats, strings, `None`, lists. -/
def isInstInt : PyVal → Bool
  | .int _ => true
  | .bool _ => true
  | _ => false

/-- `CONFIG["required_fields"]` of the source. -/
def required_fields : List String := ["event_name", "created_at", "event_uuid"]

/-- Line 49 of the source:
`all(field in payload for field in CONFIG["required_fields"])`. -/
def checkComplete (payload : Payload) : Bool :=
  required_fields.all (fun f => hasKeyP payload f)

/-- The possible exits of `validate_event`, in source order:
`incomplete` — the required-fields check failed (returns `False`);
`badCreatedAt` — `isinstance(payload.get("created_at"), int)` failed
(returns `False`); `badUuidFormat` — `int(payload['event_uuid'])` raised
`ValueError`, which the `except ValueError` catches (returns `False`);
`raises` — the coercion raised `TypeError` (e.g. on `None` or a list),
which the `except ValueError` does NOT catch, so the exception escapes;
`ok p` — returns `True` with `payload['event_uuid']` overwritten by the
coerced integer. -/
inductive VResult where
  | ok : Payload → VResult
  | incomplete : VResult
  | badCreatedAt : VResult
  | badUuidFormat : VResult
  | raises : VResult
deriving Repr

/-- `validate_event` (source lines 39–63). -/
def validate_event (payload : Payload) : VResult :=
  if ¬ checkComplete payload then .incomplete
  else if ¬ isInstInt (getP payload "created_at") then .badCreatedAt
  else
    match coerceInt (getP payload "event_uuid") with
    | .ok n => .ok (insertP payload "event_uuid" (.int n))
    | .valueError => .badUuidFormat
    | .typeError => .raises

/-- The boolean a caller of `validate_event` observes; `Option.none`
when the call raises instead of returning. -/
def vReturns : VResult → Option Bool
  | .ok _ => Option.some true
  | .incomplete => Option.some false
  | .badCreatedAt => Option.some false
  | .badUuidFormat => Option.some false
  | .raises => Option.none

example : validate_event [("event_name", .str "a:b"), ("created_at", .int 5),
    ("event_uuid", .str "7")] =
    .ok [("event_name", .str "a:b"), ("created_at", .int 5),
      ("event_uuid", .int 7)] := rfl

example : validate_event [("event_name", .str "a:b"), ("created_at", .int 5),
    ("event_uuid", PyVal.none)] = .raises := rfl

example : validate_event [("event_name", .str "a:b"), ("created_at", .str "5"),
    ("event_uuid", .str "7")] = .badCreatedAt := rfl

example : validate_event [("created_at", .int 5),
    ("event_uuid", .str "7")] = .incomplete := rfl

/-! ## Enrichment (source lines 95–101) -/

/-- Civil date (year, month, day) of a day count relative to 1970-01-01,
the calendar part of `datetime.utcfromtimestamp`. -/
def civilFromDays (z0 : Int) : Int × Nat × Nat :=
  let z := z0 + 719468
  let era := z.ediv 146097
  let doe := (z - era * 146097).toNat
  let yoe := (doe - doe / 1460 + doe / 36524 - doe / 146096) / 365
  let y : Int := (yoe : Int) + era * 400
  let doy := doe - (365 * yoe + yoe / 4 - yoe / 100)
  let mp := (5 * doy + 2) / 153
  let d := doy - (153 * mp + 2) / 5 + 1
  let m := if mp < 10 then mp + 3 else mp - 9
  (if m ≤ 2 then y + 1 else y, m, d)

/-- Calendar fields (year, month, day, hour, minute, second) of a Unix
timestamp in UTC. -/
def dateParts (ts : Int) : Int × Nat × Nat × Nat × Nat × Nat :=
  let days := ts.ediv 86400
  let secs := (ts.emod 86400).toNat
  let (y, m, d) := civilFromDays days
  (y, m, d, secs / 3600, secs % 3600 / 60, secs % 60)

/-- Zero-pad a number below 100 to two digits. -/
def pad2 (n : Nat) : String :=
  if n < 10 then "0" ++ toString n else toString n

/-- Zero-pad a year to four digits. -/
def pad4 (y : Int) : String :=
  if y < 0 then toString y
  else if y < 10 then "000" ++ toString y
  else if y < 100 then "00" ++ toString y
  else if y < 1000 then "0" ++ toString y
  else toString y

/-- `datetime.utcfromtimestamp(ts).isoformat()` — an integer timestamp has
zero microseconds, so the rendering is `YYYY-MM-DDTHH:MM:SS`. -/
def isoformat (ts : Int) : String :=
  let (y, m, d, hh, mm, ss) := dateParts ts
  pad4 y ++ "-" ++ pad2 m ++ "-" ++ pad2 d ++ "T" ++
    pad2 hh ++ ":" ++ pad2 mm ++ ":" ++ pad2 ss

/-- `datetime.utcfromtimestamp(ts).strftime("%Y/%m/%d")`. -/
def dateSlug (ts : Int) : String :=
  let (y, m, d, _, _, _) := dateParts ts
  pad4 y ++ "/" ++ pad2 m ++ "/" ++ pad2 d

example : isoformat 1 = "1970-01-01T00:00:01" := rfl

example : isoformat 1700000000 = "2023-11-14T22:13:20" := rfl

example : dateSlug 1700000000 = "2023/11/14" := rfl

example : pyIntOfString " +12 " = Option.some 12 := rfl

example : pyIntOfString "7.5" = Option.none := rfl

/-- Python `s.split(":")` over the character list of `s`: the maximal
colon-free segments, in order. The result is never empty
(`"".split(":") == [""]`). -/
def splitOnColon : List Char → List (List Char)
  | [] => [[]]
  | c :: rest =>
      if c = ':' then [] :: splitOnColon rest
      else
        match splitOnColon rest with
        | s :: ss => (c :: s) :: ss
        | [] => [[c]]

/-- The integer seconds `datetime.utcfromtimestamp` reads off its argument:
an `int` directly, a `bool` as `True = 1` / `False = 0` (Python `bool` is a
subclass of `int`), a float by its value; any other type raises `TypeError`
(`Option.none`). -/
def toTimestamp : PyVal → Option Int
  | .int n => Option.some n
  | .bool b => Option.some (if b then 1 else 0)
  | .float n => Option.some n
  | _ => Option.none

/-- The enrichment part of `enrich_and_store_event` (source lines 95–101):
adds `created_datetime`, `event_type`, `event_subtype` to the payload and
derives the S3 object key. `Option.none` models an escaping exception
(`TypeError` from `utcfromtimestamp` on a non-numeric `created_at`, or
`AttributeError` from `.split` when `event_name` is not a string); the
f-string renders each component with Python `str`, so an absent subtype
(`None`) appears as the literal path segment `"None"`. -/
def enrich (payload : Payload) : Option (Payload × String) :=
  match toTimestamp (getP payload "created_at") with
  | Option.none => Option.none
  | Option.some ts =>
    match getP payload "event_name" with
    | .str name =>
      let p1 := insertP payload "created_datetime" (.str (isoformat ts))
      let parts := splitOnColon name.toList
      let etype : String := String.mk (parts.headD [])
      let esub : PyVal :=
        match parts with
        | _ :: u :: _ => .str (String.mk u)
        | _ => PyVal.none
      let p2 := insertP p1 "event_type" (.str etype)
      let p3 := insertP p2 "event_subtype" esub
      let file_path :=
        dateSlug ts ++ "/" ++ etype ++ "/" ++ pyStr esub ++ "/" ++
          pyStr (getP p3 "event_uuid") ++ ".json"
      Option.some (p3, file_path)
    | _ => Option.none

/-! ## Stores and the per-record processor (source lines 65–131) -/

/-- The external state the pipeline touches: the DynamoDB idempotency
table (set of present `event_uuid` keys), the S3 bucket (object key paired
with the stored payload, standing for its JSON body), and an availability
flag per store — a false flag makes every call to that store raise, which
is how the source's `try`/`except` paths are exercised. -/
structure World where
  dynamo : List String
  s3 : List (String × Payload)
  dynamoFails : Bool
  s3Fails : Bool
deriving Repr

/-- `check_duplicate` (source lines 65–83): a `get_item` keyed on
`str(event_uuid)`; `'Item' in response` is key membership. A store error
raises (`Option.none`) — the function re-raises rather than returning. -/
def check_duplicate (event_uuid : PyVal) (w : World) : Option Bool :=
  if w.dynamoFails then Option.none
  else Option.some (w.dynamo.contains (pyStr event_uuid))

/-- `enrich_and_store_event` (source lines 85–110): enrich, `put_object`
to S3 at the derived path, then `put_item` of `str(event_uuid)` into
DynamoDB. The returned flag is false when any step raised; the returned
world keeps the side effects already committed before the raise (an S3
write that succeeded stays even if the DynamoDB write then fails). -/
def enrich_and_store_event (payload : Payload) (w : World) : Bool × World :=
  match enrich payload with
  | Option.none => (false, w)
  | Option.some (p, file_path) =>
    if w.s3Fails then (false, w)
    else
      let w1 : World := { w with s3 := (file_path, p) :: w.s3 }
      if w.dynamoFails then (false, w1)
      else (true, { w1 with dynamo := pyStr (getP p "event_uuid") :: w1.dynamo })

/-- A Kinesis record, reduced to the result of
`json.loads(record["kinesis"]["data"])`: `Option.none` models a record
whose data does not decode (the `json.loads` call raises). -/
abbrev Record := Option Payload

/-- The terminal classification of one record, naming the exit paths of
`process_event`: `error` is any caught exception (decode failure, a
`TypeError` escaping `validate_event`, a store/sink failure),
the `rejected_*` outcomes are the `return False` paths of the
validation/duplicate checks, and `stored` is the `return True` path. -/
inductive Outcome where
  | error
  | rejected_incomplete
  | rejected_invalid
  | rejected_duplicate
  | stored
deriving Repr, DecidableEq

/-- `process_event` (source lines 112–131), instrumented with the exit
path taken. The source ordering: decode, then
`if not validate_event(payload) or check_duplicate(payload['event_uuid'])`
— validation runs first and short-circuits, and `check_duplicate` receives
`payload['event_uuid']` as mutated by validation (the coerced integer).
Enrichment and the two writes run only after both checks pass. The
surrounding `try`/`except Exception` turns every raise into `False`. -/
def process_eventO (record : Record) (w : World) : Outcome × World :=
  match record with
  | Option.none => (.error, w)
  | Option.some payload =>
    match validate_event payload with
    | .raises => (.error, w)
    | .incomplete => (.rejected_incomplete, w)
    | .badCreatedAt => (.rejected_invalid, w)
    | .badUuidFormat => (.rejected_invalid, w)
    | .ok p =>
      match check_duplicate (getP p "event_uuid") w with
      | Option.none => (.error, w)
      | Option.some true => (.rejected_duplicate, w)
      | Option.some false =>
        match enrich_and_store_event p w with
        | (true, w') => (.stored, w')
        | (false, w') => (.error, w')

/-- Whether an outcome is the `return True` exit. -/
def outcomeBool : Outcome → Bool
  | .stored => true
  | _ => false

/-- The boolean `process_event` actually returns, with the updated store
state. -/
def process_event (record : Record) (w : World) : Bool × World :=
  let (o, w') := process_eventO record w
  (outcomeBool o, w')

/-! ## Batch coordinator (source lines 133–159) -/

/-- `[process_event(record) for record in event["Records"]]` — records are
processed left to right, each seeing the store state the previous ones
left. -/
def processList : List Record → World → List Bool × World
  | [], w => ([], w)
  | r :: rs, w =>
    let (b, w1) := process_event r w
    let (bs, w2) := processList rs w1
    (b :: bs, w2)

/-- The dictionary `lambda_handler` returns:
`{'status': 'complete', 'total_events': ..., 'successfully_processed': ...,
'success_rate': ...}`. -/
structure LambdaResult where
  status : String
  total_events : Nat
  successfully_processed : Nat
  success_rate : Rat
deriving Repr, DecidableEq

/-- `lambda_handler` (source lines 133–159): process every record, count
the `True`s (`sum(processed_events)`), and compute
`(success_count / len(records)) * 100 if records else 0`. -/
def lambda_handler (records : List Record) (w : World) : LambdaResult × World :=
  let (bs, w') := processList records w
  let success_count := (bs.filter (fun b => b)).length
  ({ status := "complete"
     total_events := records.length
     successfully_processed := success_count
     success_rate :=
       if records.isEmpty then 0
       else ((success_count : Rat) / (records.length : Rat)) * 100 }, w')

/-- A store state with both stores healthy. -/
def healthy (dyn : List String) : World :=
  { dynamo := dyn, s3 := [], dynamoFails := false, s3Fails := false }

example :
    (process_eventO (Option.some [("event_name", .str "order:refund"),
      ("created_at", .int 1700000000), ("event_uuid", .str "7")])
      (healthy [])).1 = .stored := rfl

example :
    (process_eventO (Option.some [("event_name", .str "order:refund"),
      ("created_at", .int 1700000000), ("event_uuid", .str "7")])
      (healthy ["7"])).1 = .rejected_duplicate := rfl

/-- The number of records of a batch whose outcome is `stored`, following
the same left-to-right store-state threading as the batch loop. -/
def countStored : List Record → World → Nat
  | [], _ => 0
  | r :: rs, w =>
    let (o, w') := process_eventO r w
    (if o = Outcome.stored then 1 else 0) + countStored rs w'

/-! ## Dictionary and split lemmas -/

theorem getP_insertP_same (p : Payload) (k : String) (v : PyVal) :
    getP (insertP p k v) k = v := by
  induction p with
  | nil => simp [insertP, getP]
  | cons kv rest ih =>
    obtain ⟨k', v'⟩ := kv
    by_cases h : k' = k <;> simp [insertP, getP, h, ih]

theorem getP_insertP_ne (p : Payload) (k k' : String) (v : PyVal)
    (h : k ≠ k') : getP (insertP p k v) k' = getP p k' := by
  induction p with
  | nil => simp [insertP, getP, h]
  | cons kv rest ih =>
    obtain ⟨k0, v0⟩ := kv
    by_cases h0 : k0 = k
    · subst h0
      simp [insertP, getP, h]
    · simp [insertP, getP, h0, ih]

theorem splitOnColon_ne_nil (cs : List Char) : splitOnColon cs ≠ [] := by
  induction cs with
  | nil => simp [splitOnColon]
  | cons c rest ih =>
    simp only [splitOnColon]
    by_cases h : c = ':'
    · simp [h]
    · simp only [h, if_false]
      cases hsp : splitOnColon rest <;> simp

theorem splitOnColon_no_colon (cs : List Char) (h : ':' ∉ cs) :
    splitOnColon cs = [cs] := by
  induction cs with
  | nil => rfl
  | cons c rest ih =>
    simp only [List.mem_cons, not_or] at h
    obtain ⟨h1, h2⟩ := h
    simp [splitOnColon, Ne.symm h1, ih h2]

theorem splitOnColon_append (a b : List Char) (h : ':' ∉ a) :
    splitOnColon (a ++ ':' :: b) = a :: splitOnColon b := by
  induction a with
  | nil => simp [splitOnColon]
  | cons c rest ih =>
    simp only [List.mem_cons, not_or] at h
    obtain ⟨h1, h2⟩ := h
    simp [splitOnColon, Ne.symm h1, ih h2]

theorem splitOnColon_head (cs : List Char) :
    (splitOnColon cs).headD [] = cs.takeWhile (fun c => c != ':') := by
  induction cs with
  | nil => rfl
  | cons c rest ih =>
    by_cases h : c = ':'
    · simp [splitOnColon, h, List.takeWhile_cons]
    · cases hsp : splitOnColon rest with
      | nil => exact absurd hsp (splitOnColon_ne_nil rest)
      | cons s ss =>
        rw [hsp] at ih
        simp only [List.headD] at ih
        simp [splitOnColon, h, hsp, List.takeWhile_cons, ih]

/-! ## The shape of a successful enrichment -/

/-- The `event_subtype` value derived from an event name:
`event_parts[1] if len(event_parts) > 1 else None`. -/
def subtypeVal (name : String) : PyVal :=
  match splitOnColon name.toList with
  | _ :: u :: _ => PyVal.str (String.mk u)
  | _ => PyVal.none

/-- The payload as it stands after the three enrichment insertions. -/
def enrichedPayload (payload : Payload) (ts : Int) (name : String) : Payload :=
  insertP (insertP (insertP payload "created_datetime" (.str (isoformat ts)))
    "event_type" (.str (String.mk ((splitOnColon name.toList).headD []))))
    "event_subtype" (subtypeVal name)

/-- The derived S3 object key. -/
def pathOf (payload : Payload) (ts : Int) (name : String) : String :=
  dateSlug ts ++ "/" ++ String.mk ((splitOnColon name.toList).headD []) ++ "/" ++
    pyStr (subtypeVal name) ++ "/" ++
    pyStr (getP (enrichedPayload payload ts name) "event_uuid") ++ ".json"

theorem enrich_eq (payload : Payload) (ts : Int) (name : String)
    (hts : toTimestamp (getP payload "created_at") = Option.some ts)
    (hname : getP payload "event_name" = PyVal.str name) :
    enrich payload =
      Option.some (enrichedPayload payload ts name, pathOf payload ts name) := by
  simp [enrich, hts, hname, enrichedPayload, pathOf, subtypeVal]

theorem enriched_uuid (payload : Payload) (ts : Int) (name : String) :
    getP (enrichedPayload payload ts name) "event_uuid" =
      getP payload "event_uuid" := by
  unfold enrichedPayload
  rw [getP_insertP_ne _ _ _ _ (by decide), getP_insertP_ne _ _ _ _ (by decide),
    getP_insertP_ne _ _ _ _ (by decide)]

theorem enriched_type (payload : Payload) (ts : Int) (name : String) :
    getP (enrichedPayload payload ts name) "event_type" =
      PyVal.str (String.mk ((splitOnColon name.toList).headD [])) := by
  unfold enrichedPayload
  rw [getP_insertP_ne _ _ _ _ (by decide), getP_insertP_same]

theorem enriched_subtype (payload : Payload) (ts : Int) (name : String) :
    getP (enrichedPayload payload ts name) "event_subtype" = subtypeVal name := by
  unfold enrichedPayload
  rw [getP_insertP_same]

theorem enriched_datetime (payload : Payload) (ts : Int) (name : String) :
    getP (enrichedPayload payload ts name) "created_datetime" =
      PyVal.str (isoformat ts) := by
  unfold enrichedPayload
  rw [getP_insertP_ne _ _ _ _ (by decide), getP_insertP_ne _ _ _ _ (by decide),
    getP_insertP_same]

/-! ## Claims -/

/-- **C1**, counterexample. A record whose uuid `"7"` is already recorded in
the idempotency store (the raw form `"7"` and the canonical form
`str(int("7"))` coincide here) but whose `created_at` is a string is
classified `rejected_invalid`, not `rejected_duplicate`: `process_event`
runs `validate_event` (field validation included) before `check_duplicate`,
contradicting the claimed ordering. -/
theorem C1_counterexample :
    (process_eventO (Option.some [("event_name", PyVal.str "a:b"),
        ("created_at", PyVal.str "1700000000"), ("event_uuid", PyVal.str "7")])
      (healthy ["7"])).1 = Outcome.rejected_invalid ∧
    Outcome.rejected_invalid ≠ Outcome.rejected_duplicate :=
  ⟨rfl, by decide⟩

/-- **C1**, amended. Field-level validation precedes duplicate detection:
a record whose `created_at` or `event_uuid` fails validation yields
`rejected_invalid` with the store never consulted, and for a record that
passes validation the `exists` query is issued with the canonical
post-coercion uuid (`str` of the coerced integer, read back out of the
mutated payload), a hit yielding `rejected_duplicate`. -/
theorem C1_validation_precedes_duplicate (p p' : Payload) (w : World) :
    (validate_event p = VResult.badCreatedAt →
      process_eventO (Option.some p) w = (Outcome.rejected_invalid, w)) ∧
    (validate_event p = VResult.badUuidFormat →
      process_eventO (Option.some p) w = (Outcome.rejected_invalid, w)) ∧
    (validate_event p = VResult.ok p' → w.dynamoFails = false →
      w.dynamo.contains (pyStr (getP p' "event_uuid")) = true →
      process_eventO (Option.some p) w = (Outcome.rejected_duplicate, w)) := by
  refine ⟨fun h => by simp [process_eventO, h],
    fun h => by simp [process_eventO, h],
    fun h hdf hmem => by
      have hm : pyStr (getP p' "event_uuid") ∈ w.dynamo := by simpa using hmem
      simp [process_eventO, h, check_duplicate, hdf, hm]⟩

theorem C1_validation_precedes_duplicate_witness :
    process_eventO (Option.some [("event_name", PyVal.str "a:b"),
        ("created_at", PyVal.int 5), ("event_uuid", PyVal.str "7")])
      (healthy ["7"]) = (Outcome.rejected_duplicate, healthy ["7"]) :=
  (C1_validation_precedes_duplicate
    [("event_name", PyVal.str "a:b"), ("created_at", PyVal.int 5),
      ("event_uuid", PyVal.str "7")]
    [("event_name", PyVal.str "a:b"), ("created_at", PyVal.int 5),
      ("event_uuid", PyVal.int 7)]
    (healthy ["7"])).2.2 rfl rfl rfl

/-- **C2**, counterexample. On a complete payload whose `event_uuid` is
`None`, the coercion `int(None)` raises `TypeError`, which the
`except ValueError` handler of `validate_event` does not catch: the
exception escapes instead of a `False` return. -/
theorem C2_counterexample :
    validate_event [("event_name", PyVal.str "a"), ("created_at", PyVal.int 5),
      ("event_uuid", PyVal.none)] = VResult.raises ∧
    vReturns VResult.raises = Option.none :=
  ⟨rfl, rfl⟩

/-- **C2**, amended. `validate_event` raises exactly when the payload is
complete, `created_at` passes the integer check, and coercion of
`event_uuid` raises `TypeError` (`None`, a list, ...); a coercion failure
raising `ValueError` (non-numeric string) is caught and reported as
`False`; the escaping `TypeError` is caught only by `process_event`'s
blanket handler, which classifies the record as `error`. -/
theorem C2_no_escape_except_typeerror (p : Payload) (w : World) :
    (validate_event p = VResult.raises ↔
      checkComplete p = true ∧ isInstInt (getP p "created_at") = true ∧
        coerceInt (getP p "event_uuid") = Coerce.typeError) ∧
    (checkComplete p = true → isInstInt (getP p "created_at") = true →
      coerceInt (getP p "event_uuid") = Coerce.valueError →
      vReturns (validate_event p) = Option.some false) ∧
    (validate_event p = VResult.raises →
      process_eventO (Option.some p) w = (Outcome.error, w)) := by
  refine ⟨?_, ?_, ?_⟩
  · unfold validate_event
    by_cases h1 : checkComplete p
    · by_cases h2 : isInstInt (getP p "created_at")
      · cases h3 : coerceInt (getP p "event_uuid") <;> simp [h1, h2, h3]
      · simp [h1, h2]
    · simp [h1]
  · intro h1 h2 h3
    simp [validate_event, vReturns, h1, h2, h3]
  · intro h
    simp [process_eventO, h]

theorem C2_no_escape_except_typeerror_witness :
    vReturns (validate_event [("event_name", PyVal.str "a"),
      ("created_at", PyVal.int 5), ("event_uuid", PyVal.str "x")]) =
      Option.some false :=
  (C2_no_escape_except_typeerror [("event_name", PyVal.str "a"),
    ("created_at", PyVal.int 5), ("event_uuid", PyVal.str "x")]
    (healthy [])).2.1 rfl rfl rfl

/-- **C4**, confirmed. The DynamoDB `put_item` of the uuid key runs only
after the S3 `put_object` succeeded: an S3 failure returns with the whole
world unchanged, and on every failing path the idempotency table is left
exactly as it was. -/
theorem C4_no_record_without_write (payload : Payload) (w : World) :
    (w.s3Fails = true → enrich_and_store_event payload w = (false, w)) ∧
    ((enrich_and_store_event payload w).1 = false →
      ((enrich_and_store_event payload w).2).dynamo = w.dynamo) := by
  unfold enrich_and_store_event
  cases h : enrich payload with
  | none => simp
  | some pr =>
    obtain ⟨p, path⟩ := pr
    by_cases hs : w.s3Fails
    · simp [hs]
    · by_cases hd : w.dynamoFails <;> simp [hs, hd]

theorem C4_no_record_without_write_witness :
    enrich_and_store_event [("event_name", PyVal.str "a:b"),
      ("created_at", PyVal.int 5), ("event_uuid", PyVal.int 7)]
      { dynamo := [], s3 := [], dynamoFails := false, s3Fails := true } =
    (false, { dynamo := [], s3 := [], dynamoFails := false, s3Fails := true }) :=
  (C4_no_record_without_write [("event_name", PyVal.str "a:b"),
      ("created_at", PyVal.int 5), ("event_uuid", PyVal.int 7)]
    { dynamo := [], s3 := [], dynamoFails := false, s3Fails := true }).1 rfl

/-- **C8**, confirmed. The completeness check is true iff the three
required keys are present; presence depends only on the key list, never on
the values (empty string or zero count as present); a payload failing it is
classified `rejected_incomplete`, the field checks and the coercion being
unreachable regardless of what the fields hold. -/
theorem C8_completeness_presence (p : Payload) (w : World) :
    (checkComplete p = true ↔
      hasKeyP p "event_name" = true ∧ hasKeyP p "created_at" = true ∧
        hasKeyP p "event_uuid" = true) ∧
    (∀ k, hasKeyP p k = true ↔ k ∈ p.map Prod.fst) ∧
    (checkComplete p = false → validate_event p = VResult.incomplete) ∧
    (checkComplete p = false →
      process_eventO (Option.some p) w = (Outcome.rejected_incomplete, w)) := by
  refine ⟨?_, ?_, ?_, ?_⟩
  · simp [checkComplete, required_fields]
  · intro k
    induction p with
    | nil => simp [hasKeyP]
    | cons kv rest ih =>
      obtain ⟨k1, v1⟩ := kv
      simp only [hasKeyP, List.map_cons, List.mem_cons, Bool.or_eq_true,
        decide_eq_true_eq, ih]
      constructor
      · rintro (h | h)
        · exact Or.inl h.symm
        · exact Or.inr h
      · rintro (h | h)
        · exact Or.inl h.symm
        · exact Or.inr h
  · intro h
    simp [validate_event, h]
  · intro h
    simp [process_eventO, validate_event, h]

/-- A record that passes validation against healthy stores, is not yet
recorded, and enriches cleanly takes the full success path: S3 receives the
enriched payload at the derived key and DynamoDB receives the canonical
uuid string. -/
theorem process_stored (p p' : Payload) (w : World) (ts : Int) (name : String)
    (hv : validate_event p = VResult.ok p')
    (hts : toTimestamp (getP p' "created_at") = Option.some ts)
    (hname : getP p' "event_name" = PyVal.str name)
    (hdf : w.dynamoFails = false) (hsf : w.s3Fails = false)
    (hmem : pyStr (getP p' "event_uuid") ∉ w.dynamo) :
    process_eventO (Option.some p) w =
      (Outcome.stored,
        { w with
          s3 := (pathOf p' ts name, enrichedPayload p' ts name) :: w.s3,
          dynamo := pyStr (getP p' "event_uuid") :: w.dynamo }) := by
  have he := enrich_eq p' ts name hts hname
  simp [process_eventO, hv, check_duplicate, hdf, hmem,
    enrich_and_store_event, he, hsf, enriched_uuid]

/-- **C5**, confirmed. A complete, field-valid record (with a string
`event_name`, an enrichable `created_at`, healthy stores, and its canonical
uuid not yet recorded) is `stored` on the first processing; the second
processing of the same record finds the canonical key just recorded,
yields `rejected_duplicate`, and leaves both stores untouched. -/
theorem C5_idempotent_twice (p p' : Payload) (w : World) (ts : Int) (name : String)
    (hv : validate_event p = VResult.ok p')
    (hts : toTimestamp (getP p' "created_at") = Option.some ts)
    (hname : getP p' "event_name" = PyVal.str name)
    (hdf : w.dynamoFails = false) (hsf : w.s3Fails = false)
    (hmem : pyStr (getP p' "event_uuid") ∉ w.dynamo) :
    process_eventO (Option.some p) w =
      (Outcome.stored,
        { w with
          s3 := (pathOf p' ts name, enrichedPayload p' ts name) :: w.s3,
          dynamo := pyStr (getP p' "event_uuid") :: w.dynamo }) ∧
    process_eventO (Option.some p)
        { w with
          s3 := (pathOf p' ts name, enrichedPayload p' ts name) :: w.s3,
          dynamo := pyStr (getP p' "event_uuid") :: w.dynamo } =
      (Outcome.rejected_duplicate,
        { w with
          s3 := (pathOf p' ts name, enrichedPayload p' ts name) :: w.s3,
          dynamo := pyStr (getP p' "event_uuid") :: w.dynamo }) := by
  refine ⟨process_stored p p' w ts name hv hts hname hdf hsf hmem, ?_⟩
  simp [process_eventO, hv, check_duplicate, hdf]

theorem C5_idempotent_twice_witness :
    (process_eventO (Option.some [("event_name", PyVal.str "a:b"),
        ("created_at", PyVal.int 5), ("event_uuid", PyVal.str "7")])
      (healthy [])).1 = Outcome.stored := by
  have h := C5_idempotent_twice
    [("event_name", PyVal.str "a:b"), ("created_at", PyVal.int 5),
      ("event_uuid", PyVal.str "7")]
    [("event_name", PyVal.str "a:b"), ("created_at", PyVal.int 5),
      ("event_uuid", PyVal.int 7)]
    (healthy []) 5 "a:b" rfl rfl rfl rfl rfl (by simp [healthy])
  rw [h.1]

/-- **C6**, confirmed. The batch result always carries `status ==
'complete'` and counts every record of the batch; processing is a
record-by-record fold, so one record's boolean never stops the records
after it (conjunct four is exactly the loop step), and a record that fails
to decode contributes `False` and leaves the store state untouched, so the
rest of the batch proceeds exactly as it would have without it. -/
theorem C6_batch_isolation (records rs : List Record) (r : Record) (w : World) :
    ((lambda_handler records w).1.status = "complete") ∧
    ((lambda_handler records w).1.total_events = records.length) ∧
    ((processList records w).1.length = records.length) ∧
    (processList (r :: rs) w =
      ((process_event r w).1 :: (processList rs (process_event r w).2).1,
        (processList rs (process_event r w).2).2)) ∧
    (processList (Option.none :: rs) w =
      (false :: (processList rs w).1, (processList rs w).2)) := by
  refine ⟨rfl, rfl, ?_, rfl, rfl⟩
  induction records generalizing w with
  | nil => rfl
  | cons r1 rest ih => simp [processList, ih]

theorem C8_completeness_presence_witness :
    process_eventO (Option.some [("event_name", PyVal.str ""),
      ("event_uuid", PyVal.none)]) (healthy []) =
      (Outcome.rejected_incomplete, healthy []) :=
  (C8_completeness_presence [("event_name", PyVal.str ""),
    ("event_uuid", PyVal.none)] (healthy [])).2.2.2 rfl

/-- `sum(processed_events)` — the number of `True`s in the boolean list —
equals the number of records whose outcome is `stored`. -/
theorem processList_count (records : List Record) (w : World) :
    ((processList records w).1.filter (fun b => b)).length =
      countStored records w := by
  induction records generalizing w with
  | nil => rfl
  | cons r rs ih =>
    rcases h : process_eventO r w with ⟨o, w'⟩
    simp only [processList, countStored, process_event, h]
    cases o <;> simp [outcomeBool, ih, Nat.add_comm]

/-- **C9**, confirmed. An empty batch reports `total_events = 0` and a
success rate of `0` with no division performed; for a non-empty batch the
success rate is the number of `stored` records divided by the batch size,
times `100` (the only percentage field the handler returns). -/
theorem C9_metrics (records : List Record) (w : World) :
    ((lambda_handler [] w).1.total_events = 0 ∧
      (lambda_handler [] w).1.success_rate = 0) ∧
    ((lambda_handler records w).1.successfully_processed =
      countStored records w) ∧
    (records ≠ [] →
      (lambda_handler records w).1.success_rate =
        (countStored records w : Rat) / (records.length : Rat) * 100) := by
  rcases h : processList records w with ⟨bs, w'⟩
  have hc := processList_count records w
  rw [h] at hc
  refine ⟨⟨rfl, rfl⟩, ?_, ?_⟩
  · simp [lambda_handler, h, hc]
  · intro hne
    cases records with
    | nil => exact absurd rfl hne
    | cons r rs => simp [lambda_handler, h, hc]

theorem C9_metrics_witness :
    (lambda_handler [Option.some [("event_name", PyVal.str "a:b"),
        ("created_at", PyVal.int 5), ("event_uuid", PyVal.str "7")]]
      (healthy [])).1.success_rate =
      (countStored [Option.some [("event_name", PyVal.str "a:b"),
          ("created_at", PyVal.int 5), ("event_uuid", PyVal.str "7")]]
        (healthy []) : Rat) /
        ((List.length [Option.some [("event_name", PyVal.str "a:b"),
          ("created_at", PyVal.int 5), ("event_uuid", PyVal.str "7")]] : Nat) : Rat)
        * 100 :=
  (C9_metrics [Option.some [("event_name", PyVal.str "a:b"),
      ("created_at", PyVal.int 5), ("event_uuid", PyVal.str "7")]]
    (healthy [])).2.2 (by simp)

/-- **C3**, counterexample. For `event_name = "a:b:c"` the enriched
`event_subtype` is `"b"` — the segment between the first and second colons
— not the claimed full remainder `"b:c"`: the source splits on every colon
(`split(":")`) and keeps only `event_parts[1]`. -/
theorem C3_counterexample :
    (enrich [("event_name", PyVal.str "a:b:c"), ("created_at", PyVal.int 5),
        ("event_uuid", PyVal.int 7)]).map
      (fun pr => getP pr.1 "event_subtype") = Option.some (PyVal.str "b") ∧
    ("b" : String) ≠ "b:c" :=
  ⟨rfl, by decide⟩

/-- **C3**, amended. Enrichment splits `event_name` on every colon:
`event_type` is the prefix before the first colon, and `event_subtype` is
only the segment strictly between the first and second colons (text after
a second colon is dropped from both derived fields); with no colon present,
`event_type` is the full string and `event_subtype` is `None`. -/
theorem C3_split_between_colons (payload : Payload) (ts : Int) (name : String)
    (a b : List Char)
    (hts : toTimestamp (getP payload "created_at") = Option.some ts)
    (hname : getP payload "event_name" = PyVal.str name) :
    (name.toList = a ++ ':' :: b → ':' ∉ a →
      (enrich payload).map
          (fun pr => (getP pr.1 "event_type", getP pr.1 "event_subtype")) =
        Option.some (PyVal.str (String.mk a),
          PyVal.str (String.mk (b.takeWhile (fun c => c != ':'))))) ∧
    (':' ∉ name.toList →
      (enrich payload).map
          (fun pr => (getP pr.1 "event_type", getP pr.1 "event_subtype")) =
        Option.some (PyVal.str name, PyVal.none)) := by
  have he := enrich_eq payload ts name hts hname
  constructor
  · intro hab ha
    have hsp : splitOnColon name.data = a :: splitOnColon b := by
      show splitOnColon name.toList = a :: splitOnColon b
      rw [hab]
      exact splitOnColon_append a b ha
    rcases hb : splitOnColon b with _ | ⟨s, ss⟩
    · exact absurd hb (splitOnColon_ne_nil b)
    · have hshead : s = b.takeWhile (fun c => c != ':') := by
        have hh := splitOnColon_head b
        rw [hb] at hh
        simpa using hh
      rw [he]
      simp [enriched_type, enriched_subtype, subtypeVal, hsp, hb, hshead]
  · intro hnone
    have hsp : splitOnColon name.data = [name.data] :=
      splitOnColon_no_colon _ hnone
    rw [he]
    simp [enriched_type, enriched_subtype, subtypeVal, hsp]

theorem C3_split_between_colons_witness :
    (enrich [("event_name", PyVal.str "x:y:z"), ("created_at", PyVal.int 5),
        ("event_uuid", PyVal.int 7)]).map
      (fun pr => (getP pr.1 "event_type", getP pr.1 "event_subtype")) =
      Option.some (PyVal.str (String.mk ['x']),
        PyVal.str (String.mk (['y', ':', 'z'].takeWhile (fun c => c != ':')))) :=
  (C3_split_between_colons [("event_name", PyVal.str "x:y:z"),
      ("created_at", PyVal.int 5), ("event_uuid", PyVal.int 7)]
    5 "x:y:z" ['x'] ['y', ':', 'z'] rfl rfl).1 rfl (by decide)

/-- **C7**, counterexample. A complete payload whose `event_uuid` is `None`
is not coercible to integer, yet its outcome is `error`, not
`rejected_invalid`: `int(None)` raises `TypeError`, which escapes
`validate_event`'s `except ValueError` and is only caught by
`process_event`'s blanket handler. -/
theorem C7_counterexample :
    (process_eventO (Option.some [("event_name", PyVal.str "a"),
        ("created_at", PyVal.int 5), ("event_uuid", PyVal.none)])
      (healthy [])).1 = Outcome.error ∧
    Outcome.error ≠ Outcome.rejected_invalid :=
  ⟨rfl, by decide⟩

/-- **C7**, amended. For every coercible `event_uuid` (numeric strings
included) validation overwrites the field in place with the canonical
integer, whose string rendering is then both the idempotency-store key
(in the `exists` lookup and in the recorded item) and the final
storage-path component; a value whose coercion raises `ValueError`
(non-numeric string) yields `rejected_invalid`, while a value whose
coercion raises `TypeError` (`None`, a list) yields `error`. -/
theorem C7_canonical_uuid (p q : Payload) (w : World) (n ts : Int)
    (name : String) :
    (checkComplete p = true → isInstInt (getP p "created_at") = true →
      coerceInt (getP p "event_uuid") = Coerce.ok n →
      validate_event p = VResult.ok (insertP p "event_uuid" (PyVal.int n))) ∧
    (checkComplete p = true → isInstInt (getP p "created_at") = true →
      coerceInt (getP p "event_uuid") = Coerce.valueError →
      (process_eventO (Option.some p) w).1 = Outcome.rejected_invalid) ∧
    (checkComplete p = true → isInstInt (getP p "created_at") = true →
      coerceInt (getP p "event_uuid") = Coerce.typeError →
      (process_eventO (Option.some p) w).1 = Outcome.error) ∧
    (w.dynamoFails = false →
      check_duplicate (PyVal.int n) w =
        Option.some (w.dynamo.contains (toString n))) ∧
    (toTimestamp (getP q "created_at") = Option.some ts →
      getP q "event_name" = PyVal.str name →
      getP q "event_uuid" = PyVal.int n →
      w.s3Fails = false → w.dynamoFails = false →
      (enrich_and_store_event q w).1 = true ∧
      (enrich_and_store_event q w).2.dynamo = toString n :: w.dynamo ∧
      (enrich_and_store_event q w).2.s3 =
        ((dateSlug ts ++ "/" ++ String.mk ((splitOnColon name.toList).headD [])
            ++ "/" ++ pyStr (subtypeVal name) ++ "/" ++ toString n ++ ".json"),
          enrichedPayload q ts name) :: w.s3) := by
  refine ⟨?_, ?_, ?_, ?_, ?_⟩
  · intro h1 h2 h3
    simp [validate_event, h1, h2, h3]
  · intro h1 h2 h3
    simp [process_eventO, validate_event, h1, h2, h3]
  · intro h1 h2 h3
    simp [process_eventO, validate_event, h1, h2, h3]
  · intro hdf
    simp [check_duplicate, hdf, pyStr]
  · intro hts hname hqu hsf hdf
    have he := enrich_eq q ts name hts hname
    refine ⟨?_, ?_, ?_⟩ <;>
      simp [enrich_and_store_event, he, hsf, hdf, pathOf, enriched_uuid,
        hqu, pyStr]

theorem C7_canonical_uuid_witness :
    validate_event [("event_name", PyVal.str "a:b"), ("created_at", PyVal.int 5),
        ("event_uuid", PyVal.str "12")] =
      VResult.ok (insertP [("event_name", PyVal.str "a:b"),
        ("created_at", PyVal.int 5), ("event_uuid", PyVal.str "12")]
        "event_uuid" (PyVal.int 12)) ∧
    (enrich_and_store_event [("event_name", PyVal.str "a:b"),
        ("created_at", PyVal.int 5), ("event_uuid", PyVal.int 12)]
      (healthy [])).2.dynamo = toString (12 : Int) :: (healthy []).dynamo :=
  ⟨(C7_canonical_uuid [("event_name", PyVal.str "a:b"),
      ("created_at", PyVal.int 5), ("event_uuid", PyVal.str "12")]
      [] (healthy []) 12 5 "a:b").1 rfl rfl rfl,
    ((C7_canonical_uuid []
      [("event_name", PyVal.str "a:b"), ("created_at", PyVal.int 5),
        ("event_uuid", PyVal.int 12)]
      (healthy []) 12 5 "a:b").2.2.2.2 rfl rfl rfl rfl rfl).2.1⟩

/-- **C10**, confirmed. A Python boolean `created_at` passes
`isinstance(..., int)` (bool is a subclass of int), so a record carrying
`True`/`False` there is validated, and enrichment derives its
`created_datetime` from the timestamp `1`/`0` seconds since epoch; with
healthy stores and a fresh uuid the record is `stored`, not
`rejected_invalid`. -/
theorem C10_bool_created_at (p : Payload) (b : Bool) (n : Int)
    (name : String) (w : World)
    (hc : checkComplete p = true)
    (hca : getP p "created_at" = PyVal.bool b)
    (hu : coerceInt (getP p "event_uuid") = Coerce.ok n)
    (hname : getP p "event_name" = PyVal.str name)
    (hdf : w.dynamoFails = false) (hsf : w.s3Fails = false)
    (hmem : toString n ∉ w.dynamo) :
    isInstInt (PyVal.bool b) = true ∧
    validate_event p = VResult.ok (insertP p "event_uuid" (PyVal.int n)) ∧
    (process_eventO (Option.some p) w).1 = Outcome.stored ∧
    getP (enrichedPayload (insertP p "event_uuid" (PyVal.int n))
        (if b then 1 else 0) name) "created_datetime" =
      PyVal.str (isoformat (if b then 1 else 0)) := by
  have hv : validate_event p = VResult.ok (insertP p "event_uuid" (PyVal.int n)) := by
    simp [validate_event, hc, hca, hu, isInstInt]
  have hca' : getP (insertP p "event_uuid" (PyVal.int n)) "created_at" =
      PyVal.bool b := by
    rw [getP_insertP_ne _ _ _ _ (by decide), hca]
  have hname' : getP (insertP p "event_uuid" (PyVal.int n)) "event_name" =
      PyVal.str name := by
    rw [getP_insertP_ne _ _ _ _ (by decide), hname]
  have hts : toTimestamp (getP (insertP p "event_uuid" (PyVal.int n)) "created_at") =
      Option.some (if b then 1 else 0) := by
    rw [hca']
    rfl
  have huu : getP (insertP p "event_uuid" (PyVal.int n)) "event_uuid" =
      PyVal.int n := getP_insertP_same p "event_uuid" (PyVal.int n)
  have hmem' : pyStr (getP (insertP p "event_uuid" (PyVal.int n)) "event_uuid")
      ∉ w.dynamo := by
    rw [huu]
    exact hmem
  have hst := process_stored p (insertP p "event_uuid" (PyVal.int n)) w
    (if b then 1 else 0) name hv hts hname' hdf hsf hmem'
  refine ⟨by cases b <;> rfl, hv, by rw [hst], ?_⟩
  exact enriched_datetime _ _ _

theorem C10_bool_created_at_witness :
    (process_eventO (Option.some [("event_name", PyVal.str "a:b"),
        ("created_at", PyVal.bool true), ("event_uuid", PyVal.str "7")])
      (healthy [])).1 = Outcome.stored :=
  (C10_bool_created_at [("event_name", PyVal.str "a:b"),
      ("created_at", PyVal.bool true), ("event_uuid", PyVal.str "7")]
    true 7 "a:b" (healthy []) rfl rfl rfl rfl rfl rfl
    (by simp [healthy])).2.2.1

end Transform
